import Mathlib

/-!
Verification development for the Gnosis validator dashboard client
(katspaugh/gnosis-validator-safe-app).

The JavaScript sources are shallowly embedded: pure functions become Lean
functions, asynchronous operations are parameterised by an explicit
environment describing the outcome of each external call (wallet provider,
JSON-RPC endpoint, indexer, Safe SDK), and JS exceptions are modelled with
`Except`.  JS numbers that hold wei amounts are modelled as exact integers;
`null`/`undefined` become `Option`.
-/

namespace GnosisApp

set_option maxRecDepth 8000

/-! ## Address/Amount codec (utils.js)

`formatEther` computes with JS numbers, i.e. IEEE-754 binary64 values; the
embedding models a JS number as `NaN`, a signed infinity, or a finite value
carried as its exact rational, and implements `parseInt`'s exact-integer
read followed by rounding to binary64, correctly rounded division, and the
ECMAScript `toFixed`/`ToString` renderings. -/

/-- Value of a single hexadecimal digit, `none` for a non-hex character. -/
def hexDigitVal (c : Char) : Option Nat :=
  if '0' ≤ c ∧ c ≤ '9' then some (c.toNat - '0'.toNat)
  else if 'a' ≤ c ∧ c ≤ 'f' then some (c.toNat - 'a'.toNat + 10)
  else if 'A' ≤ c ∧ c ≤ 'F' then some (c.toNat - 'A'.toNat + 10)
  else none

/-- Accumulate the numeric value of the longest hex-digit run at the head of
the character list, the way JS `parseInt(value, 16)` consumes its input. -/
def parseHexRun : List Char → Nat → Nat
  | [], acc => acc
  | c :: cs, acc =>
    match hexDigitVal c with
    | some d => parseHexRun cs (acc * 16 + d)
    | none => acc

/-- Whitespace skipped by JS `parseInt` before the number: the ECMAScript
WhiteSpace set (TAB, VT, FF, SP, NBSP, ZWNBSP and the Unicode
space-separator category) plus the LineTerminator set (LF, CR, LS, PS). -/
def isJsSpace (c : Char) : Bool :=
  c = '\t' ∨ c = '\n' ∨ c = '\u000B' ∨ c = '\u000C' ∨ c = '\r' ∨ c = ' ' ∨
  c = ' ' ∨ c = ' ' ∨ (' ' ≤ c ∧ c ≤ ' ') ∨ c = ' ' ∨
  c = ' ' ∨ c = ' ' ∨ c = ' ' ∨ c = '　' ∨ c = '﻿'

/-- Drop an optional leading `0x` / `0X`, as `parseInt(_, 16)` does. -/
def dropHexMark : List Char → List Char
  | '0' :: 'x' :: cs => cs
  | '0' :: 'X' :: cs => cs
  | cs => cs

/-- JS `parseInt(value, 16)` up to its final rounding step: skip
whitespace, read an optional sign, drop an optional `0x` mark, then take
the longest run of hex digits and read it as an exact mathematical
integer; `none` models `NaN` (no digit found). -/
def jsParseIntHexExact (s : String) : Option Int :=
  let cs := s.toList.dropWhile isJsSpace
  let sign : Int := match cs with | '-' :: _ => -1 | _ => 1
  let cs := match cs with | '-' :: rest => rest | '+' :: rest => rest | _ => cs
  let cs := dropHexMark cs
  match cs with
  | [] => none
  | c :: _ =>
    match hexDigitVal c with
    | some _ => some (sign * (parseHexRun cs 0 : Nat))
    | none => none

/-- Left-pad a string with `'0'` up to `k` characters. -/
def padZeros (k : Nat) (s : String) : String :=
  String.mk (List.replicate (k - s.length) '0') ++ s

/-! ### Binary64 arithmetic -/

/-- Exact rational as an unreduced fraction; `den` is kept positive by all
constructions here, and no gcd normalisation is performed (so every
operation is plain integer arithmetic, evaluable by the kernel). -/
structure Q where
  num : Int
  den : Int

def qOfInt (i : Int) : Q := ⟨i, 1⟩

def qLe (x y : Q) : Prop := x.num * y.den ≤ y.num * x.den

instance (x y : Q) : Decidable (qLe x y) := by unfold qLe; infer_instance

def qLt (x y : Q) : Prop := x.num * y.den < y.num * x.den

instance (x y : Q) : Decidable (qLt x y) := by unfold qLt; infer_instance

def qEqv (x y : Q) : Prop := x.num * y.den = y.num * x.den

instance (x y : Q) : Decidable (qEqv x y) := by unfold qEqv; infer_instance

def qFloor (x : Q) : Int := Int.fdiv x.num x.den

def qSub (x y : Q) : Q := ⟨x.num * y.den - y.num * x.den, x.den * y.den⟩

def qAbs (x : Q) : Q := ⟨|x.num|, x.den⟩

def qMul (x y : Q) : Q := ⟨x.num * y.num, x.den * y.den⟩

/-- Division; meaningful when `y` is positive. -/
def qDiv (x y : Q) : Q := ⟨x.num * y.den, x.den * y.num⟩

/-- Reciprocal; meaningful when `x` is positive. -/
def qInv (x : Q) : Q := ⟨x.den, x.num⟩

def qPow2 (e : Int) : Q :=
  if 0 ≤ e then ⟨Int.ofNat (Nat.pow 2 e.toNat), 1⟩
  else ⟨1, Int.ofNat (Nat.pow 2 (-e).toNat)⟩

def qPow10 (e : Int) : Q :=
  if 0 ≤ e then ⟨Int.ofNat (Nat.pow 10 e.toNat), 1⟩
  else ⟨1, Int.ofNat (Nat.pow 10 (-e).toNat)⟩

/-- Number of binary digits of `n` (0 for 0), by tail-recursive fuel
recursion. -/
def bitLenAux : Nat → Nat → Nat → Nat
  | 0, _, acc => acc
  | fuel + 1, n, acc => if n = 0 then acc else bitLenAux fuel (n / 2) (acc + 1)

def bitLen (n : Nat) : Nat := bitLenAux (n + 1) n 0

/-- Number of decimal digits of `n` (0 for 0), by tail-recursive fuel
recursion. -/
def digLenAux : Nat → Nat → Nat → Nat
  | 0, _, acc => acc
  | fuel + 1, n, acc => if n = 0 then acc else digLenAux fuel (n / 10) (acc + 1)

def digLen (n : Nat) : Nat := digLenAux (n + 1) n 0

/-- A JS number: NaN, a signed infinity, or a finite binary64 value carried
as its exact rational value. -/
inductive JsNum where
  | nan : JsNum
  | inf (neg : Bool) : JsNum
  | finite (q : Q) : JsNum

/-- Floor of the base-2 logarithm of a positive rational. -/
def log2floorPos (x : Q) : Int :=
  if qLe (qOfInt 1) x then (bitLen (qFloor x).toNat : Int) - 1
  else
    let l : Int := (bitLen (qFloor (qInv x)).toNat : Int) - 1
    if qLe (qPow2 (-l)) x then -l else -l - 1

/-- Floor of the base-10 logarithm of a positive rational. -/
def log10floorPos (x : Q) : Int :=
  if qLe (qOfInt 1) x then (digLen (qFloor x).toNat : Int) - 1
  else
    let l : Int := (digLen (qFloor (qInv x)).toNat : Int) - 1
    if qLe (qPow10 (-l)) x then -l else -l - 1

/-- Round an exact rational to the nearest binary64 value (ties to even
mantissa), overflowing to the signed infinity; subnormal exponents are
clamped at -1074.  JS negative zero is conflated with zero, which is
observationally identical for every operation this embedding performs. -/
def roundToDouble (x : Q) : JsNum :=
  if qEqv x (qOfInt 0) then JsNum.finite (qOfInt 0)
  else
    let neg := qLt x (qOfInt 0)
    let a := qAbs x
    let e : Int := max (log2floorPos a - 52) (-1074)
    let scaled := qMul a (qPow2 (-e))
    let m0 := qFloor scaled
    let fr := qSub scaled (qOfInt m0)
    let half : Q := ⟨1, 2⟩
    let m : Int :=
      if qLt half fr then m0 + 1
      else if qLt fr half then m0
      else if m0 % 2 = 0 then m0 else m0 + 1
    let me : Int × Int :=
      if m = Int.ofNat (Nat.pow 2 53) then (Int.ofNat (Nat.pow 2 52), e + 1) else (m, e)
    if 971 < me.2 then JsNum.inf neg
    else JsNum.finite (qMul (qOfInt (if neg then -me.1 else me.1)) (qPow2 me.2))

/-- IEEE division of a JS number by a positive finite constant: the exact
quotient, rounded back to binary64. -/
def jsDivD (x : JsNum) (y : Q) : JsNum :=
  match x with
  | JsNum.nan => JsNum.nan
  | JsNum.inf b => JsNum.inf b
  | JsNum.finite q => roundToDouble (qDiv q y)

def zerosStr (m : Nat) : String := String.mk (List.replicate m '0')

/-- ECMAScript layout of the decimal `s · 10^(n-k)` with `k` significant
digits: plain-integer, point-insertion, leading-zero and exponential
forms. -/
def jsFormatSKN (s : Int) (k : Nat) (n : Int) : String :=
  let digits := toString s.toNat
  if (k : Int) ≤ n ∧ n ≤ 21 then digits ++ zerosStr (n - k).toNat
  else if 0 < n ∧ n ≤ 21 then
    String.mk (digits.toList.take n.toNat) ++ "." ++ String.mk (digits.toList.drop n.toNat)
  else if -5 < n ∧ n ≤ 0 then "0." ++ zerosStr (-n).toNat ++ digits
  else
    let mant := if k = 1 then digits
      else String.mk (digits.toList.take 1) ++ "." ++ String.mk (digits.toList.drop 1)
    mant ++ "e" ++ (if n - 1 < 0 then "-" else "+") ++ toString (n - 1).natAbs

/-- Does the decimal `s · 10^p` have `x` as its nearest binary64 value? -/
def jsRoundTrips (x : Q) (p : Int) (s : Int) : Bool :=
  match roundToDouble (qMul (qOfInt s) (qPow10 p)) with
  | JsNum.finite y => decide (qEqv y x)
  | _ => false

/-- Of the two bracketing decimal candidates, the one whose nearest
binary64 is `x`; when both round-trip, the closer, and on a tie the even
one (the ECMAScript choice of `s`). -/
def jsPickCand (x : Q) (p lo : Int) : Option Int :=
  let goodLo := jsRoundTrips x p lo
  let goodHi := jsRoundTrips x p (lo + 1)
  if goodLo && goodHi then
    let d1 := qAbs (qSub (qMul (qOfInt lo) (qPow10 p)) x)
    let d2 := qAbs (qSub (qMul (qOfInt (lo + 1)) (qPow10 p)) x)
    if qLt d1 d2 then some lo
    else if qLt d2 d1 then some (lo + 1)
    else if lo % 2 = 0 then some lo else some (lo + 1)
  else if goodLo then some lo
  else if goodHi then some (lo + 1)
  else none

/-- One shortest-representation candidate test at `k` significant digits;
a candidate that lands on `10^k` is renormalised to keep `k` digits. -/
def jsTryK (x : Q) (n : Int) (k : Nat) : Option (Int × Int) :=
  let p : Int := n - k
  match jsPickCand x p (qFloor (qDiv x (qPow10 p))) with
  | none => none
  | some s =>
    if s = Int.ofNat (Nat.pow 10 k) then some (Int.ofNat (Nat.pow 10 (k - 1)), n + 1)
    else some (s, n)

/-- Shortest-round-trip decimal search, `k` from 1 upward. -/
def jsShortest (x : Q) (n : Int) : Nat → Nat → Option (Int × Nat × Int)
  | 0, _ => none
  | fuel + 1, k =>
    match jsTryK x n k with
    | some (s, n') => some (s, k, n')
    | none => jsShortest x n fuel (k + 1)

/-- ECMAScript ToString of a positive finite binary64 value: the decimal
with the fewest significant digits that rounds back to the value (17
digits always suffice for binary64, so the fallback is unreachable). -/
def jsToStringPos (x : Q) : String :=
  let n := log10floorPos x + 1
  match jsShortest x n 17 1 with
  | some (s, k, n') => jsFormatSKN s k n'
  | none => jsFormatSKN (qFloor x) (digLen (qFloor x).toNat) n

/-- ECMAScript `Number.prototype.toFixed(6)`: NaN renders as NaN; a
negative value contributes a sign and is negated; a magnitude at or above
10^21 (hence also an infinity) is rendered by ToString; otherwise the
closest multiple of 10^-6 (ties to the larger) in fixed notation with six
fractional digits. -/
def jsToFixed6 (x : JsNum) : String :=
  match x with
  | JsNum.nan => "NaN"
  | JsNum.inf neg => (if neg then "-" else "") ++ "Infinity"
  | JsNum.finite q =>
    let sgn := if qLt q (qOfInt 0) then "-" else ""
    let a := qAbs q
    if qLe (qPow10 21) a then sgn ++ jsToStringPos a
    else
      let n := (qFloor (qMul a (qOfInt 1000000)) +
        (if qLe ⟨1, 2⟩ (qSub (qMul a (qOfInt 1000000))
            (qOfInt (qFloor (qMul a (qOfInt 1000000))))) then 1 else 0)).toNat
      sgn ++ toString (n / 1000000) ++ "." ++ padZeros 6 (toString (n % 1000000))

/-- JS `isNaN` on a number. -/
def jsIsNaN : JsNum → Bool
  | JsNum.nan => true
  | _ => false

/-- JS `parseInt(value, 16)` in full: the exact integer read, rounded to a
binary64 value, or NaN. -/
def jsParseIntHexNum (s : String) : JsNum :=
  match jsParseIntHexExact s with
  | none => JsNum.nan
  | some i => roundToDouble (qOfInt i)

/-- `Math.pow(10, 18)`, which is exactly 10^18 (the value is below 2^53 ·
2^18, with an odd part below 2^53, so it is representable and `Math.pow`
returns it exactly). -/
def qTenPow18 : Q := ⟨Int.ofNat (Nat.pow 10 18), 1⟩

/-- utils.js `formatEther`: `none` stands for both `null` and `undefined`.
Falsy input (`null`, `undefined`, the empty string) and the literal `"0x"`
short-circuit to the zero string; a `NaN` parse also yields the zero
string; otherwise the parsed binary64 value is divided by `Math.pow(10,
18)` and rendered by `toFixed(6)`.  The function is total: no input
raises. -/
def formatEther (value : Option String) : String :=
  match value with
  | none => "0.000000"
  | some s =>
    if s = "" ∨ s = "0x" then "0.000000"
    else
      let parsed := jsParseIntHexNum s
      if jsIsNaN parsed then "0.000000"
      else jsToFixed6 (jsDivD parsed qTenPow18)

/-- Remove the first occurrence of the two-character run `0x`, mirroring JS
`String.prototype.replace` with a string pattern (first match only). -/
def dropFirst0x : List Char → List Char
  | [] => []
  | '0' :: 'x' :: cs => cs
  | c :: cs => c :: dropFirst0x cs

/-- utils.js `encodeAddress`: lower-case, strip the first `0x`, left-pad with
zeros to 64 characters. -/
def encodeAddress (address : String) : String :=
  let cs := dropFirst0x address.toLower.toList
  String.mk (List.replicate (64 - cs.length) '0' ++ cs)

/-- utils.js `isValidAddress`: the regex `^0x[a-fA-F0-9]\x7b40\x7d$`. -/
def isValidAddress (s : String) : Bool :=
  let cs := s.toList
  cs.length = 42 ∧ cs.take 2 = ['0', 'x'] ∧ (cs.drop 2).all (fun c => (hexDigitVal c).isSome)

/-! ## Selector table (config.js) -/

/-- config.js `FUNCTION_SELECTORS`: the five statically known selectors. -/
def FUNCTION_SELECTORS : List (String × String) :=
  [("withdrawableAmount(address)", "0xf3fef3a3"),
   ("balanceOf(address)", "0x70a08231"),
   ("claimWithdrawal(address)", "0x4782f779"),
   ("withdrawableAmount_alt", "0x1ac51b98"),
   ("claimWithdrawal_alt", "0x5cc4aa9f")]

/-- JS property lookup `FUNCTION_SELECTORS[key]`; `none` models `undefined`
for a missing key. -/
def selectorLookup (key : String) : Option String :=
  (FUNCTION_SELECTORS.find? (fun p => p.1 = key)).map Prod.snd

/-- JS string coercion of a possibly-`undefined` value, as happens when an
`undefined` selector is concatenated with a string. -/
def jsStr (o : Option String) : String :=
  o.getD "undefined"

/-! ## RPC client (callContract of the adapter-aware contract service) -/

/-- JS `String.prototype.startsWith` on character lists. -/
def startsWithChars : List Char → List Char → Bool
  | [], _ => true
  | _ :: _, [] => false
  | a :: as, b :: bs => a = b && startsWithChars as bs

/-- JS `String.prototype.includes`: `sub` occurs somewhere inside `s`. -/
def strContains (s sub : String) : Bool :=
  (List.range (s.length + 1)).any (fun i => startsWithChars sub.toList (s.toList.drop i))

/-- Mock tier of `callContract`: pick a deterministic value by which known
selector occurs in the call data, defaulting to the zero result `0x0`. -/
def mockResult (data : String) : String :=
  if strContains data (jsStr (selectorLookup "withdrawableAmount(address)")) ∨
     strContains data (jsStr (selectorLookup "withdrawableAmount_alt")) then
    "0x6f05b59d3b20000"
  else if strContains data (jsStr (selectorLookup "balanceOf(address)")) then
    "0x8e3f50b173c10000"
  else
    "0x0"

/-- Outcomes of the external calls one `callContract` invocation can make.
`adapter` is `makeContractCall` (its `ok none` is the `null` that signals
fall-through); `ethereum` is `none` when `window.ethereum` is undefined, and
its inner `Option` is a possibly-`null` `eth_call` result; `rpc` collapses
the whole fetch-and-parse of the direct JSON-RPC tier, whose `error` covers
a network failure, a JSON failure, and a JSON-RPC `error` field alike. -/
structure CallEnv (E : Type) where
  adapter : Except E (Option String)
  ethereum : Option (Except E (Option String))
  rpc : Except E String

/-- Direct-RPC tier with its inner catch: any failure is swallowed into the
mock tier. -/
def rpcTier (E : Type) (rpc : Except E String) (data : String) : Except E String :=
  match rpc with
  | .ok r => .ok r
  | .error _ => .ok (mockResult data)

/-- `callContract` of the adapter-aware contract service
(src/unnamed/part_003): adapter result if non-null; else the wallet
`eth_call` when a provider exists, falling through to the RPC tier only when
its result is falsy or `0x`; the RPC tier swallows its own failure into the
mock tier.  An exception from the adapter or the wallet call reaches the
single outer catch, which logs and re-throws. -/
def callContract (E : Type) (env : CallEnv E) (data : String) : Except E String :=
  match env.adapter with
  | .error e => .error e
  | .ok (some r) => .ok r
  | .ok none =>
    match env.ethereum with
    | none => rpcTier E env.rpc data
    | some (.error e) => .error e
    | some (.ok res) =>
      match res with
      | none => rpcTier E env.rpc data
      | some r => if r ≠ "" ∧ r ≠ "0x" then .ok r else rpcTier E env.rpc data

/-! ## Contract service operations

Each operation is parameterised by the behaviour of the world: `call` maps a
contract address and call data to the outcome `callContract` would produce,
`send` maps transaction data to the outcome of `sendTransaction`.  Next to
the result, each embedding returns the list of call-data payloads actually
issued, so theorems can speak about which selectors were tried. -/

/-- `getWithdrawableAmount` (contractService.js and src/unnamed/part_003):
primary selector first, alternate selector on failure, second failure
propagated.  Returns the issued call-data list and the final outcome. -/
def getWithdrawableAmount (E : Type) (call : String → String → Except E String)
    (contractAddress account : String) : List String × Except E String :=
  let d1 := jsStr (selectorLookup "withdrawableAmount(address)") ++ encodeAddress account
  match call contractAddress d1 with
  | .ok r => ([d1], .ok r)
  | .error _ =>
    let d2 := jsStr (selectorLookup "withdrawableAmount_alt") ++ encodeAddress account
    ([d1, d2], call contractAddress d2)

/-- `getTokenBalance`: one selector, no alternates, failure propagates. -/
def getTokenBalance (E : Type) (call : String → String → Except E String)
    (tokenAddress account : String) : List String × Except E String :=
  let d := jsStr (selectorLookup "balanceOf(address)") ++ encodeAddress account
  ([d], call tokenAddress d)

/-- Parameterless leg of `claimWithdrawal` (src/unnamed/part_003): walk the
method names, look each up in the selector table, send that value as the
transaction data, stop at the first success, drop every failure. -/
def claimParamlessLoop (E : Type) (send : Option String → Except E String) :
    List String → List (Option String) × Option String
  | [] => ([], none)
  | m :: rest =>
    let d := selectorLookup m
    match send d with
    | .ok h => ([d], some h)
    | .error _ =>
      ((d :: (claimParamlessLoop E send rest).1), (claimParamlessLoop E send rest).2)

/-- `claimWithdrawal` (src/unnamed/part_003): the three parameterless method
names first, then the address-parameterised primary selector, then its
alternate; the first success wins and only the last attempt's failure is
raised.  Returns the issued transaction-data list and the final outcome. -/
def claimWithdrawal (E : Type) (send : Option String → Except E String)
    (account : String) : List (Option String) × Except E String :=
  let loop := claimParamlessLoop E send ["claim()", "claimRewards()", "claimWithdrawal()"]
  match loop.2 with
  | some h => (loop.1, .ok h)
  | none =>
    let d4 : Option String :=
      some (jsStr (selectorLookup "claimWithdrawal(address)") ++ encodeAddress account)
    match send d4 with
    | .ok h => (loop.1 ++ [d4], .ok h)
    | .error _ =>
      let d5 : Option String :=
        some (jsStr (selectorLookup "claimWithdrawal_alt") ++ encodeAddress account)
      (loop.1 ++ [d4, d5], send d5)

/-! ## Validator count service (getValidatorCount of src/unnamed/part_003) -/

/-- What one page request of the indexer can come back with: `netErr` covers
a fetch rejection, a non-ok HTTP status and a JSON failure (everything the
outer catch sees); `badShape` is a response without a list-shaped `data`
field; `page n` is a well-formed page with `n` items. -/
inductive PageResult where
  | netErr : PageResult
  | badShape : PageResult
  | page (n : Nat) : PageResult
deriving DecidableEq, Repr

/-- Paging loop of `getValidatorCount` over the stream of page responses,
carrying the current `offset` and the running `total`: a network error
returns 0 and discards the total, a bad shape breaks with the total, a page
below the limit 200 breaks with the new total, a full page advances the
offset by the limit.  Returns the offsets requested and the final count.
(The exhausted-stream base case is never reached by a stream that contains
a terminating response.) -/
def gvcLoop : List PageResult → Nat → Nat → List Nat × Nat
  | [], _, total => ([], total)
  | PageResult.netErr :: _, off, _ => ([off], 0)
  | PageResult.badShape :: _, off, total => ([off], total)
  | PageResult.page n :: rest, off, total =>
    if n < 200 then ([off], total + n)
    else (off :: (gvcLoop rest (off + 200) (total + n)).1, (gvcLoop rest (off + 200) (total + n)).2)

/-- `getValidatorCount`, starting at offset 0 with total 0. -/
def getValidatorCount (responses : List PageResult) : List Nat × Nat :=
  gvcLoop responses 0 0

/-! ## Connection adapter (async variant, src/unnamed/part_014) -/

/-- The two terminal connection contexts. -/
inductive ConnType where
  | wallet : ConnType
  | safe : ConnType
deriving DecidableEq, Repr

/-- Body of `getConnectionType` when the cache is empty: probe the iframe
context and, only when embedded, attempt `initSafeApp`, downgrading to
wallet mode when it fails.  The first component records whether the Safe
init was attempted at all. -/
def resolveConnectionType (E : Type) (inIframe : Bool) (initSafeApp : Except E Unit) :
    Bool × ConnType :=
  if inIframe then
    match initSafeApp with
    | .ok _ => (true, ConnType.safe)
    | .error _ => (true, ConnType.wallet)
  else (false, ConnType.wallet)

/-! ## Application controller state (module variant of app.js) -/

/-- A transient user-facing message: a kind tag and its text. -/
structure Msg where
  type : String
  text : String
deriving DecidableEq, Repr

/-- The mutable application state record `appState` of app.js. -/
structure AppState where
  account : Option String
  isConnecting : Bool
  withdrawableAmount : String
  gnoBalance : String
  validatorCount : Nat
  isLoading : Bool
  isClaiming : Bool
  message : Msg
  lookupAddress : String
  lookupWithdrawableAmount : String
  lookupGnoBalance : String
  lookupValidatorCount : Nat
  isLookupLoading : Bool
deriving DecidableEq, Repr

/-- Immediate state effect of `showMessage`: overwrite the message.  (Its
10-second auto-expiry timer is modelled separately by `msgStep`.) -/
def showMessage (type text : String) (s : AppState) : AppState :=
  { s with message := ⟨type, text⟩ }

/-- Resolved outcomes of the three fetches `Promise.all` joins in
`fetchContractData` / `fetchAddressData`.  `getValidatorCount` never
rejects (it returns 0 on error), so it contributes a plain value. -/
structure FetchResults where
  withdrawable : Except String String
  balance : Except String String
  validators : Nat

/-- `Promise.all` over the three fetches with first-rejection-wins: the
withdrawable fetch's rejection is taken when both reject. -/
def promiseAll3 (f : FetchResults) : Except String (String × String × Nat) :=
  match f.withdrawable, f.balance with
  | .ok w, .ok b => .ok (w, b, f.validators)
  | .error e, _ => .error e
  | .ok _, .error e => .error e

/-- `fetchContractData` of app.js: no-op without an account; otherwise set
`isLoading`, join the three fetches, write the formatted results or an
error message, and clear `isLoading` in the `finally`. -/
def fetchContractData (f : FetchResults) (s : AppState) : AppState :=
  match s.account with
  | none => s
  | some _ =>
    let s1 := { s with isLoading := true }
    let s2 :=
      match promiseAll3 f with
      | .ok (w, b, v) =>
        { s1 with withdrawableAmount := formatEther (some w),
                  gnoBalance := formatEther (some b),
                  validatorCount := v }
      | .error e => showMessage "error" ("Failed to fetch data: " ++ e) s1
    { s2 with isLoading := false }

/-- `fetchAddressData` of app.js: reject an invalid lookup address before
touching the busy flag; otherwise set `isLookupLoading`, join the fetches,
write the lookup results or an error message, and clear the flag in the
`finally`. -/
def fetchAddressData (f : FetchResults) (address : String) (s : AppState) : AppState :=
  if ¬ isValidAddress address then
    showMessage "error" "Please enter a valid Ethereum address" s
  else
    let s1 := { s with isLookupLoading := true }
    let s2 :=
      match promiseAll3 f with
      | .ok (w, b, v) =>
        { s1 with lookupWithdrawableAmount := formatEther (some w),
                  lookupGnoBalance := formatEther (some b),
                  lookupValidatorCount := v }
      | .error e => showMessage "error" ("Failed to fetch data for address: " ++ e) s1
    { s2 with isLookupLoading := false }

/-- Outcomes of the external calls `connectWallet` makes. -/
structure ConnectEnv where
  walletAvailable : Bool
  requestAccounts : Except String (List String)
  switchChain : Except String Unit
  fetch : FetchResults

/-- `connectWallet` of app.js: bail out with a guidance message when no
wallet is injected (the busy flag is untouched); otherwise set
`isConnecting`, request accounts, switch chains, fetch data, show the
success message — any failure resets the account and shows an error — and
clear `isConnecting` in the `finally`. -/
def connectWallet (env : ConnectEnv) (s : AppState) : AppState :=
  if ¬ env.walletAvailable then
    showMessage "error" "MetaMask or compatible wallet not found. Please install a Web3 wallet." s
  else
    let s1 := { s with isConnecting := true }
    let s2 :=
      match env.requestAccounts with
      | .error e =>
        showMessage "error" ("Failed to connect wallet: " ++ e) { s1 with account := none }
      | .ok accounts =>
        let sa := { s1 with account := accounts.head? }
        match env.switchChain with
        | .error e =>
          showMessage "error" ("Failed to connect wallet: " ++ e) { sa with account := none }
        | .ok _ =>
          showMessage "success" "Wallet connected successfully!" (fetchContractData env.fetch sa)
    { s2 with isConnecting := false }

/-- `claimRewards` of app.js: no-op without an account; otherwise set
`isClaiming`, submit the claim, show the success or failure message, and
clear `isClaiming` in the `finally`.  (The delayed refresh it schedules is
a later `fetchContractData` run.) -/
def claimRewards (claimResult : Except String String) (s : AppState) : AppState :=
  match s.account with
  | none => s
  | some _ =>
    let s1 := { s with isClaiming := true }
    let s2 :=
      match claimResult with
      | .ok tx => showMessage "success" ("Transaction submitted! Hash: " ++ tx) s1
      | .error e => showMessage "error" ("Failed to claim rewards: " ++ e) s1
    { s2 with isClaiming := false }

/-! ## Message auto-expiry timers (showMessage of app.js)

Message-state events: a `set` is the synchronous part of a `showMessage`
call; a `fire` is the 10-second timer that call scheduled, carrying the
message it was scheduled for.  The timer callback compares only the
captured `text` against the current state before clearing. -/

inductive MsgEvent where
  | set (m : Msg)
  | fire (scheduledFor : Msg)
deriving DecidableEq, Repr

/-- One message-state transition. -/
def msgStep (current : Msg) : MsgEvent → Msg
  | MsgEvent.set m => m
  | MsgEvent.fire m => if current.text = m.text then ⟨"", ""⟩ else current

/-- Run a sequence of message events from an initial message state. -/
def msgRun (init : Msg) (events : List MsgEvent) : Msg :=
  events.foldl msgStep init

/-! ## Concurrent connection-type resolution (src/unnamed/part_014 with
safeService.js), in an embedded (iframe) context

Two tasks each run `getConnectionType`.  The shared state is the adapter's
`connectionType` cache, the `safeAppsSDK` slot of the Safe service, and a
counter of entries into the real initialisation work (the SDK wait,
construction and `getInfo`).  Each task is at one of three program points:
about to check the cache, suspended inside its init attempt, or done.  A
task that finds the cache empty and the SDK slot empty starts its own init
attempt; the attempt's completion writes the cache — `safe` on success,
`wallet` on failure (the adapter's catch).  `initOk i` tells whether the
`i`-th attempt's `getInfo` succeeds. -/

structure ResolverState where
  connectionType : Option ConnType
  sdkConstructed : Bool
  initAttempts : Nat
deriving DecidableEq, Repr

inductive TaskPC where
  | start : TaskPC
  | awaitingInit (i : Nat) : TaskPC
  | done (t : ConnType) : TaskPC
deriving DecidableEq, Repr

/-- One step of a single task running `getConnectionType`. -/
def taskStep (initOk : Nat → Bool) (g : ResolverState) (pc : TaskPC) :
    ResolverState × TaskPC :=
  match pc with
  | TaskPC.start =>
    match g.connectionType with
    | some t => (g, TaskPC.done t)
    | none =>
      if g.sdkConstructed then
        ({ g with connectionType := some ConnType.safe }, TaskPC.done ConnType.safe)
      else
        ({ g with initAttempts := g.initAttempts + 1 }, TaskPC.awaitingInit g.initAttempts)
  | TaskPC.awaitingInit i =>
    if initOk i then
      ({ g with sdkConstructed := true, connectionType := some ConnType.safe },
       TaskPC.done ConnType.safe)
    else
      ({ g with sdkConstructed := false, connectionType := some ConnType.wallet },
       TaskPC.done ConnType.wallet)
  | TaskPC.done t => (g, TaskPC.done t)

/-- Shared state plus the program counters of the two concurrent callers. -/
structure TwoTasks where
  g : ResolverState
  pcA : TaskPC
  pcB : TaskPC
deriving DecidableEq, Repr

/-- Run one scheduler pick: `false` steps task A, `true` steps task B. -/
def schedStep (initOk : Nat → Bool) (s : TwoTasks) (pick : Bool) : TwoTasks :=
  if pick then
    let r := taskStep initOk s.g s.pcB
    { s with g := r.1, pcB := r.2 }
  else
    let r := taskStep initOk s.g s.pcA
    { s with g := r.1, pcA := r.2 }

/-- Run a whole schedule. -/
def runSched (initOk : Nat → Bool) (sched : List Bool) (s : TwoTasks) : TwoTasks :=
  sched.foldl (schedStep initOk) s

/-- Fresh session: empty cache, no SDK, no attempts, both callers about to
resolve. -/
def initialTasks : TwoTasks :=
  ⟨⟨none, false, 0⟩, TaskPC.start, TaskPC.start⟩

/-- Modelled from the spec's words, for comparison with the source-derived
binary64 pipeline: the amount `n` wei divided by 10^18 and written with
exactly six fractional digits under standard round-half-up on the exact
value. -/
def weiDecimal6 (n : Nat) : String :=
  let q := n / 1000000000000
  let r := n % 1000000000000
  let rounded := if 1000000000000 ≤ 2 * r then q + 1 else q
  toString (rounded / 1000000) ++ "." ++ padZeros 6 (toString (rounded % 1000000))

/-! # Theorems -/

/-- Rounding never produces NaN: every branch of `roundToDouble` ends in a
finite value or an infinity. -/
theorem roundToDouble_not_nan (q : Q) : jsIsNaN (roundToDouble q) = false := by
  simp only [roundToDouble]
  repeat' split
  all_goals rfl

/-- C2 counterexample: the wei amount 5·10^11 (hex `0x746a528800`) parses
exactly, yet `formatEther` renders it as `0.000000` where the exactly
rounded six-digit decimal of the parsed value divided by 10^18 is
`0.000001` — the binary64 quotient falls below the rounding boundary the
exact value sits on, so the output is not the parsed integer divided by
10^18 under standard rounding. -/
theorem formatEther_ieee_rounding_counterexample :
    jsParseIntHexExact "0x746a528800" = some 500000000000 ∧
    formatEther (some "0x746a528800") = "0.000000" ∧
    weiDecimal6 500000000000 = "0.000001" ∧
    ("0.000000" : String) ≠ "0.000001" :=
  ⟨by decide, by decide, by decide, by decide⟩

/-- C2 (amended): `formatEther` returns the zero string for
`null`/`undefined`, the empty string, `"0x"`, `"0x0"` and unparseable hex;
otherwise it renders the ECMAScript `toFixed(6)` of the binary64 quotient
of the parsed value (itself rounded to binary64) and 10^18, which agrees
with exact six-digit rounding where the doubles are exact — in particular
at the two concrete examples — but renders hex beyond the binary64 range
as `Infinity` and quotients at or above 10^21 in exponential form; it is a
total function, so no input raises. -/
theorem formatEther_ieee_spec :
    formatEther none = "0.000000" ∧
    formatEther (some "") = "0.000000" ∧
    formatEther (some "0x") = "0.000000" ∧
    formatEther (some "0x0") = "0.000000" ∧
    formatEther (some "zz") = "0.000000" ∧
    (∀ s, jsParseIntHexExact s = none → formatEther (some s) = "0.000000") ∧
    (∀ s i, jsParseIntHexExact s = some i →
       formatEther (some s) = jsToFixed6 (jsDivD (roundToDouble (qOfInt i)) qTenPow18)) ∧
    formatEther (some "0x6f05b59d3b20000") = "0.500000" ∧
    formatEther (some "0x8e3f50b173c10000") = "10.250000" ∧
    jsParseIntHexExact ("0x1" ++ String.mk (List.replicate 256 '0'))
      = some (Int.ofNat (Nat.pow 2 1024)) ∧
    formatEther (some ("0x1" ++ String.mk (List.replicate 256 '0'))) = "Infinity" ∧
    formatEther (some "0x1f395c90df926f0ba67594b710000000000") = "1.7e+23" := by
  refine ⟨rfl, by decide, by decide, by decide, by decide, ?_, ?_,
          by decide, by decide, by decide, by decide, by decide⟩
  · intro s h
    by_cases hs : s = "" ∨ s = "0x"
    · simp [formatEther, hs]
    · simp [formatEther, jsParseIntHexNum, hs, h, jsIsNaN]
  · intro s i h
    by_cases hs : s = "" ∨ s = "0x"
    · exfalso
      rcases hs with hs | hs <;> subst hs <;>
        simp [show jsParseIntHexExact "" = none from rfl,
              show jsParseIntHexExact "0x" = none from rfl] at h
    · simp [formatEther, jsParseIntHexNum, hs, h, roundToDouble_not_nan]

/-- C2 witness: the general pipeline clause applied at the input `0x2a`. -/
theorem formatEther_ieee_spec_witness :
    jsParseIntHexExact "0x2a" = some 42 ∧
    formatEther (some "0x2a")
      = jsToFixed6 (jsDivD (roundToDouble (qOfInt 42)) qTenPow18) :=
  ⟨by decide, formatEther_ieee_spec.2.2.2.2.2.2.1 "0x2a" 42 (by decide)⟩

/-- C3: `getWithdrawableAmount` issues the primary selector `0xf3fef3a3`
first; exactly when that call fails it rebuilds the data with the alternate
selector `0x1ac51b98` and retries once, returning whatever the second call
produces (so a retry success is returned without raising and a second
failure propagates). -/
theorem getWithdrawableAmount_retry (E : Type) (call : String → String → Except E String)
    (c a : String) :
    (∀ r, call c ("0xf3fef3a3" ++ encodeAddress a) = Except.ok r →
       getWithdrawableAmount E call c a = (["0xf3fef3a3" ++ encodeAddress a], Except.ok r)) ∧
    (∀ e, call c ("0xf3fef3a3" ++ encodeAddress a) = Except.error e →
       getWithdrawableAmount E call c a
         = (["0xf3fef3a3" ++ encodeAddress a, "0x1ac51b98" ++ encodeAddress a],
            call c ("0x1ac51b98" ++ encodeAddress a))) := by
  have hsel1 : jsStr (selectorLookup "withdrawableAmount(address)") = "0xf3fef3a3" := rfl
  have hsel2 : jsStr (selectorLookup "withdrawableAmount_alt") = "0x1ac51b98" := rfl
  constructor
  · intro r h
    simp [getWithdrawableAmount, hsel1, hsel2, h]
  · intro e h
    simp [getWithdrawableAmount, hsel1, hsel2, h]

/-- C3 witness: a world whose primary call reverts and whose alternate call
answers; the alternate's result is returned. -/
theorem getWithdrawableAmount_retry_witness :
    getWithdrawableAmount String
        (fun _ d => if d = "0x1ac51b98" ++ encodeAddress "0xab" then Except.ok "0x2a"
                    else Except.error "revert")
        "0xc" "0xab"
      = (["0xf3fef3a3" ++ encodeAddress "0xab", "0x1ac51b98" ++ encodeAddress "0xab"],
         Except.ok "0x2a") := by
  have hne : ¬ ("0xf3fef3a3" ++ encodeAddress "0xab" = "0x1ac51b98" ++ encodeAddress "0xab") := by
    decide
  have h := (getWithdrawableAmount_retry String
      (fun _ d => if d = "0x1ac51b98" ++ encodeAddress "0xab" then Except.ok "0x2a"
                  else Except.error "revert")
      "0xc" "0xab").2 "revert" (by simp [hne])
  rw [h]
  simp

/-- C6: connection-type resolution of the async adapter
(src/unnamed/part_014): an embedded page whose Safe init fails resolves to
wallet, only an embedded page with a successful Safe init resolves to safe,
and a non-embedded page resolves to wallet with no init attempt. -/
theorem connection_resolution (E : Type) (init : Except E Unit) :
    (∀ e, init = Except.error e → resolveConnectionType E true init = (true, ConnType.wallet)) ∧
    (init = Except.ok () → resolveConnectionType E true init = (true, ConnType.safe)) ∧
    resolveConnectionType E false init = (false, ConnType.wallet) ∧
    ((resolveConnectionType E true init).2 = ConnType.safe ↔ init = Except.ok ()) := by
  cases init <;> simp [resolveConnectionType]

/-- C6 witness: a failing Safe init inside an iframe downgrades to wallet. -/
theorem connection_resolution_witness :
    resolveConnectionType String true (Except.error "SDK timeout") = (true, ConnType.wallet) :=
  (connection_resolution String (Except.error "SDK timeout")).1 "SDK timeout" rfl

/-- C10: the three parameterless method names of `claimWithdrawal` are
absent from the selector table, so each lookup yields the missing value,
and every transaction the parameterless loop submits (the first up-to-three
attempts) carries that missing value as call data instead of a selector. -/
theorem claim_paramless_selectors_missing :
    selectorLookup "claim()" = none ∧
    selectorLookup "claimRewards()" = none ∧
    selectorLookup "claimWithdrawal()" = none ∧
    ∀ (E : Type) (send : Option String → Except E String) (a : String),
      (claimWithdrawal E send a).1.take 3
        = List.replicate ((claimWithdrawal E send a).1.take 3).length none := by
  refine ⟨rfl, rfl, rfl, ?_⟩
  intro E send a
  have h1 : selectorLookup "claim()" = none := rfl
  have h2 : selectorLookup "claimRewards()" = none := rfl
  have h3 : selectorLookup "claimWithdrawal()" = none := rfl
  simp only [claimWithdrawal, claimParamlessLoop, h1, h2, h3]
  cases h0 : send none with
  | ok h => simp
  | error e =>
    cases h4 : send (some (jsStr (selectorLookup "claimWithdrawal(address)") ++ encodeAddress a)) <;>
      simp

/-- Unrolling the paging loop over `k` full pages of 200 items: each full
page adds 200 to the total, records its offset, and advances the offset by
200 before the remaining stream is consumed. -/
theorem gvcLoop_fullPages (k : Nat) (tail : List PageResult) (off total : Nat) :
    gvcLoop (List.replicate k (PageResult.page 200) ++ tail) off total
      = ((List.range k).map (fun i => off + 200 * i)
           ++ (gvcLoop tail (off + 200 * k) (total + 200 * k)).1,
         (gvcLoop tail (off + 200 * k) (total + 200 * k)).2) := by
  induction k generalizing off total with
  | zero => simp [gvcLoop]
  | succ n ih =>
    rw [List.replicate_succ, List.cons_append]
    simp only [gvcLoop]
    rw [if_neg (by omega)]
    rw [ih (off + 200) (total + 200)]
    have h1 : off + 200 + 200 * n = off + 200 * (n + 1) := by ring
    have h2 : total + 200 + 200 * n = total + 200 * (n + 1) := by ring
    rw [h1, h2]
    rw [List.range_succ_eq_map, List.map_cons, List.map_map]
    have hfun : ((fun i => off + 200 * i) ∘ Nat.succ) = (fun i => off + 200 + 200 * i) := by
      funext i
      simp [Nat.mul_succ]
      ring
    rw [hfun]
    simp

/-- C1: `getValidatorCount` pages at offsets 0, 200, 400, …, summing the
page sizes, and stops at the first page below the limit 200 (returning the
accumulated sum) or at a response without a list-shaped data field
(returning the sum so far); any network/HTTP error at any page makes the
whole run return exactly 0, discarding all previously accumulated pages —
and the embedding is a total function, so it never raises. -/
theorem getValidatorCount_pagination (k m : Nat) (hm : m < 200) (rest : List PageResult) :
    (getValidatorCount (List.replicate k (PageResult.page 200) ++ [PageResult.page m])).1
        = (List.range (k + 1)).map (fun i => 200 * i) ∧
    (getValidatorCount (List.replicate k (PageResult.page 200) ++ [PageResult.page m])).2
        = 200 * k + m ∧
    (getValidatorCount (List.replicate k (PageResult.page 200) ++ (PageResult.netErr :: rest))).2
        = 0 ∧
    (getValidatorCount (List.replicate k (PageResult.page 200) ++ (PageResult.badShape :: rest))).2
        = 200 * k := by
  unfold getValidatorCount
  rw [gvcLoop_fullPages k [PageResult.page m] 0 0,
      gvcLoop_fullPages k (PageResult.netErr :: rest) 0 0,
      gvcLoop_fullPages k (PageResult.badShape :: rest) 0 0]
  simp only [gvcLoop, if_pos hm, Nat.zero_add]
  refine ⟨?_, by simp, by simp, by simp⟩
  rw [List.range_succ, List.map_append]
  simp

/-- C1 witness: two full pages of 200 then a page of 47 yield 447 at
offsets 0, 200, 400; a network error after two full pages yields 0; a
malformed page after two full pages yields the 400 accumulated so far. -/
theorem getValidatorCount_pagination_witness :
    (getValidatorCount (List.replicate 2 (PageResult.page 200) ++ [PageResult.page 47])).1
        = (List.range 3).map (fun i => 200 * i) ∧
    (getValidatorCount (List.replicate 2 (PageResult.page 200) ++ [PageResult.page 47])).2
        = 200 * 2 + 47 ∧
    (getValidatorCount (List.replicate 2 (PageResult.page 200) ++ [PageResult.netErr])).2 = 0 ∧
    (getValidatorCount (List.replicate 2 (PageResult.page 200) ++ [PageResult.badShape])).2
        = 200 * 2 ∧
    (getValidatorCount [PageResult.page 200, PageResult.page 200, PageResult.page 47]).2 = 447 := by
  have h := getValidatorCount_pagination 2 47 (by decide) []
  exact ⟨h.1, h.2.1, h.2.2.1, h.2.2.2, by decide⟩

/-- C4 counterexample: a wallet-tier `eth_call` rejection is re-raised by
`callContract` instead of being swallowed into the next tier — here the
direct-RPC tier would have answered `0xbeef`, yet the call errors, so each
tier's failure does not fall through to the next tier. -/
theorem callContract_wallet_error_raises :
    callContract String
        ⟨Except.ok none, some (Except.error "execution reverted"), Except.ok "0xbeef"⟩
        "0x70a08231"
      = Except.error "execution reverted"
    ∧ (Except.error "execution reverted" : Except String String) ≠ Except.ok "0xbeef" := by
  exact ⟨rfl, by simp⟩

/-- C4 (amended): `callContract` falls through from the adapter tier only
on a `null` result and from the wallet tier only when the provider is
absent or its result is invalid (`null`, empty, or `0x`); an exception
thrown by the adapter or wallet tier is logged and re-raised, not
swallowed; only the direct-RPC tier's failure is swallowed into the mock
tier, whose selector inspection yields the withdrawable or balance mock
value and only a mock with no selector match returns the zero result
`0x0`. -/
theorem callContract_tiers (E : Type) (env : CallEnv E) (data : String) :
    (∀ e, env.adapter = Except.error e → callContract E env data = Except.error e) ∧
    (∀ r, env.adapter = Except.ok (some r) → callContract E env data = Except.ok r) ∧
    (∀ e, env.adapter = Except.ok none → env.ethereum = some (Except.error e) →
       callContract E env data = Except.error e) ∧
    (∀ r, env.adapter = Except.ok none → env.ethereum = some (Except.ok (some r)) →
       r ≠ "" → r ≠ "0x" → callContract E env data = Except.ok r) ∧
    (env.adapter = Except.ok none →
       (env.ethereum = none ∨ env.ethereum = some (Except.ok none) ∨
        env.ethereum = some (Except.ok (some "")) ∨ env.ethereum = some (Except.ok (some "0x"))) →
       (∀ r, env.rpc = Except.ok r → callContract E env data = Except.ok r) ∧
       (∀ e, env.rpc = Except.error e → callContract E env data = Except.ok (mockResult data))) ∧
    ((strContains data "0xf3fef3a3" ∨ strContains data "0x1ac51b98") →
       mockResult data = "0x6f05b59d3b20000") ∧
    (¬ strContains data "0xf3fef3a3" → ¬ strContains data "0x1ac51b98" →
       strContains data "0x70a08231" → mockResult data = "0x8e3f50b173c10000") ∧
    (¬ strContains data "0xf3fef3a3" → ¬ strContains data "0x1ac51b98" →
       ¬ strContains data "0x70a08231" → mockResult data = "0x0") := by
  have hm1 : jsStr (selectorLookup "withdrawableAmount(address)") = "0xf3fef3a3" := rfl
  have hm2 : jsStr (selectorLookup "withdrawableAmount_alt") = "0x1ac51b98" := rfl
  have hm3 : jsStr (selectorLookup "balanceOf(address)") = "0x70a08231" := rfl
  refine ⟨?_, ?_, ?_, ?_, ?_, ?_, ?_, ?_⟩
  · intro e h
    simp [callContract, h]
  · intro r h
    simp [callContract, h]
  · intro e ha he
    simp [callContract, ha, he]
  · intro r ha he h1 h2
    simp [callContract, ha, he, h1, h2]
  · intro ha he
    constructor
    · intro r hr
      rcases he with he | he | he | he <;> simp [callContract, rpcTier, ha, he, hr]
    · intro e hr
      rcases he with he | he | he | he <;> simp [callContract, rpcTier, ha, he, hr]
  · intro h
    rcases h with h | h <;> simp [mockResult, hm1, hm2, hm3, h]
  · intro h1 h2 h3
    simp [mockResult, hm1, hm2, hm3, h1, h2, h3]
  · intro h1 h2 h3
    simp [mockResult, hm1, hm2, hm3, h1, h2, h3]

/-- C4 witness: with a null adapter result, no wallet provider and a failed
RPC tier, call data containing no known selector yields the zero mock. -/
theorem callContract_tiers_witness :
    callContract String ⟨Except.ok none, none, Except.error "network down"⟩ "0xdead"
      = Except.ok "0x0" := by
  have h := (callContract_tiers String
      ⟨Except.ok none, none, Except.error "network down"⟩ "0xdead").2.2.2.2.1
      rfl (Or.inl rfl)
  have hmock := (callContract_tiers String
      ⟨Except.ok none, none, Except.error "network down"⟩ "0xdead").2.2.2.2.2.2.2
      (by decide) (by decide) (by decide)
  rw [h.2 "network down" rfl, hmock]

/-- C5: `claimWithdrawal` tries the three parameterless methods, then the
address-parameterised primary selector `0x4782f779`, then its alternate
`0x5cc4aa9f`; the first successful attempt's transaction hash is returned,
intermediate failures are dropped, and when every attempt fails the
rejection that reaches the caller is exactly the last attempted selector's
(the alternate's) error. -/
theorem claimWithdrawal_retry_order (E : Type) (send : Option String → Except E String)
    (a : String) :
    (∀ h, send none = Except.ok h → claimWithdrawal E send a = ([none], Except.ok h)) ∧
    (∀ e0 h, send none = Except.error e0 →
       send (some ("0x4782f779" ++ encodeAddress a)) = Except.ok h →
       claimWithdrawal E send a
         = ([none, none, none, some ("0x4782f779" ++ encodeAddress a)], Except.ok h)) ∧
    (∀ e0 e4 h, send none = Except.error e0 →
       send (some ("0x4782f779" ++ encodeAddress a)) = Except.error e4 →
       send (some ("0x5cc4aa9f" ++ encodeAddress a)) = Except.ok h →
       claimWithdrawal E send a
         = ([none, none, none, some ("0x4782f779" ++ encodeAddress a),
             some ("0x5cc4aa9f" ++ encodeAddress a)], Except.ok h)) ∧
    (∀ e0 e4 e5, send none = Except.error e0 →
       send (some ("0x4782f779" ++ encodeAddress a)) = Except.error e4 →
       send (some ("0x5cc4aa9f" ++ encodeAddress a)) = Except.error e5 →
       claimWithdrawal E send a
         = ([none, none, none, some ("0x4782f779" ++ encodeAddress a),
             some ("0x5cc4aa9f" ++ encodeAddress a)], Except.error e5)) := by
  have h1 : selectorLookup "claim()" = none := rfl
  have h2 : selectorLookup "claimRewards()" = none := rfl
  have h3 : selectorLookup "claimWithdrawal()" = none := rfl
  have h4 : jsStr (selectorLookup "claimWithdrawal(address)") = "0x4782f779" := rfl
  have h5 : jsStr (selectorLookup "claimWithdrawal_alt") = "0x5cc4aa9f" := rfl
  refine ⟨?_, ?_, ?_, ?_⟩
  · intro h hok
    simp [claimWithdrawal, claimParamlessLoop, h1, h2, h3, hok]
  · intro e0 h h0 hok
    simp [claimWithdrawal, claimParamlessLoop, h1, h2, h3, h4, h5, h0, hok]
  · intro e0 e4 h h0 he4 hok
    simp [claimWithdrawal, claimParamlessLoop, h1, h2, h3, h4, h5, h0, he4, hok]
  · intro e0 e4 e5 h0 he4 he5
    simp [claimWithdrawal, claimParamlessLoop, h1, h2, h3, h4, h5, h0, he4, he5]

/-- C5 witness: a world rejecting every attempt; the caller receives the
alternate selector's error, the last one attempted. -/
theorem claimWithdrawal_retry_order_witness :
    claimWithdrawal String (fun d => Except.error (jsStr d)) "0xab"
      = ([none, none, none, some ("0x4782f779" ++ encodeAddress "0xab"),
          some ("0x5cc4aa9f" ++ encodeAddress "0xab")],
         Except.error ("0x5cc4aa9f" ++ encodeAddress "0xab")) :=
  (claimWithdrawal_retry_order String (fun d => Except.error (jsStr d)) "0xab").2.2.2
    "undefined" ("0x4782f779" ++ encodeAddress "0xab") ("0x5cc4aa9f" ++ encodeAddress "0xab")
    rfl rfl rfl

/-- C7: every operation that sets a busy flag clears it on every completion
path — from any state and for any outcome of the external calls, each
operation either leaves its flag untouched (the early-return paths that
never set it) or ends with the flag false; in particular no run that set a
flag terminates with it still true. -/
theorem busy_flags_cleared (cenv : ConnectEnv) (f : FetchResults)
    (claimResult : Except String String) (addr : String) (s : AppState) :
    ((connectWallet cenv s).isConnecting = false
      ∨ (connectWallet cenv s).isConnecting = s.isConnecting) ∧
    ((fetchContractData f s).isLoading = false
      ∨ (fetchContractData f s).isLoading = s.isLoading) ∧
    ((claimRewards claimResult s).isClaiming = false
      ∨ (claimRewards claimResult s).isClaiming = s.isClaiming) ∧
    ((fetchAddressData f addr s).isLookupLoading = false
      ∨ (fetchAddressData f addr s).isLookupLoading = s.isLookupLoading) := by
  refine ⟨?_, ?_, ?_, ?_⟩
  · by_cases hw : cenv.walletAvailable
    · exact Or.inl (by simp [connectWallet, hw])
    · exact Or.inr (by simp [connectWallet, hw, showMessage])
  · cases hacc : s.account with
    | none => exact Or.inr (by simp [fetchContractData, hacc])
    | some a => exact Or.inl (by simp [fetchContractData, hacc])
  · cases hacc : s.account with
    | none => exact Or.inr (by simp [claimRewards, hacc])
    | some a => exact Or.inl (by simp [claimRewards, hacc])
  · by_cases hv : isValidAddress addr
    · exact Or.inl (by simp [fetchAddressData, hv])
    · exact Or.inr (by simp [fetchAddressData, hv, showMessage])

/-- C8 counterexample: the first message's 10-second timer fires while the
state shows a different, newer message (same text, different kind) and
still clears it — the old timer clears a message that is not the exact
message it was scheduled for. -/
theorem showMessage_timer_clears_superseded :
    msgRun ⟨"", ""⟩
        [MsgEvent.set ⟨"error", "dup"⟩, MsgEvent.set ⟨"success", "dup"⟩,
         MsgEvent.fire ⟨"error", "dup"⟩]
      = (⟨"", ""⟩ : Msg)
    ∧ (⟨"success", "dup"⟩ : Msg) ≠ ⟨"error", "dup"⟩ := by
  exact ⟨rfl, by decide⟩

/-- C8 (amended): the timer guard compares only the captured text — a
firing timer clears the state exactly when the current message's text
equals the text it was scheduled with, regardless of the message kind; so
a superseded message whose text differs from the old one is never cleared
by the old timer, but a newer message that reuses the old text is. -/
theorem showMessage_timer_text_guard (current m : Msg) :
    (current.text ≠ m.text → msgStep current (MsgEvent.fire m) = current) ∧
    (current.text = m.text → msgStep current (MsgEvent.fire m) = (⟨"", ""⟩ : Msg)) ∧
    (∀ (init m1 m2 : Msg), m2.text ≠ m1.text →
       msgRun init [MsgEvent.set m1, MsgEvent.set m2, MsgEvent.fire m1] = m2) := by
  refine ⟨?_, ?_, ?_⟩
  · intro h
    simp [msgStep, h]
  · intro h
    simp [msgStep, h]
  · intro init m1 m2 h
    simp [msgRun, msgStep, h]

/-- C8 witness: a timer scheduled for a message with text A does not clear
a current message with text B. -/
theorem showMessage_timer_text_guard_witness :
    msgStep ⟨"success", "B"⟩ (MsgEvent.fire ⟨"error", "A"⟩) = (⟨"success", "B"⟩ : Msg) :=
  (showMessage_timer_text_guard ⟨"success", "B"⟩ ⟨"error", "A"⟩).1 (by decide)

/-- C9 counterexample: two resolutions that both check the empty cache
before either completes each enter the Safe initialisation, so two init
attempts are performed, not exactly one. -/
theorem concurrent_resolution_double_init :
    (runSched (fun _ => true) [false, true, false, true] initialTasks).g.initAttempts = 2
    ∧ (runSched (fun _ => true) [false, true, false, true] initialTasks).pcA
        = TaskPC.done ConnType.safe
    ∧ (runSched (fun _ => true) [false, true, false, true] initialTasks).pcB
        = TaskPC.done ConnType.safe
    ∧ (2 : Nat) ≠ 1 := by
  exact ⟨rfl, rfl, rfl, by decide⟩

/-- C9 (amended): only the final connection type is memoized, not the
in-flight resolution — when a second caller checks the cache before the
first caller's resolution completes, each caller performs its own Safe
init attempt (two in total, whatever the init outcomes); whereas a second
caller that starts after the first completed reuses the cached value, so
only one attempt occurs and both callers agree. -/
theorem concurrent_resolution_attempts (initOk : Nat → Bool) :
    (runSched initOk [false, true, false, true] initialTasks).g.initAttempts = 2 ∧
    (runSched initOk [false, false, true] initialTasks).g.initAttempts = 1 ∧
    (runSched initOk [false, false, true] initialTasks).pcB
      = (runSched initOk [false, false, true] initialTasks).pcA := by
  cases h0 : initOk 0 <;> cases h1 : initOk 1 <;>
    simp [runSched, schedStep, taskStep, initialTasks, h0, h1]

end GnosisApp
